import Mathlib

/-!
# Verification of the OCLite VS Code extension core

Shallow embedding of the generation-polling loop, the chat-handler
pipeline, the ImageKit CDN upload retry loop, the client-side rate
limiter, the blob-metadata construction, the share-id derivation and the
XOR obfuscation helpers of the `oclite-vscode` repository, together with
theorems settling the specification claims about them.

External collaborators (the HTTP backend, the ImageKit SDK, the Azure
blob SDK, Node's `crypto` hash) are modelled as function parameters;
everything the repository itself computes is translated directly from
the TypeScript source.
-/

namespace OCLite

/-! ## Generation client (`extension.ts` `generateImage`,
`types/index.ts` `pollGeneration` — the two are line-for-line the same
algorithm: submit, then up to 30 polls with a 2000 ms delay before
each). -/

/-- Backend job status strings consumed by the extension. -/
inductive Status
  | queued
  | starting
  | processing
  | succeeded
  | failed
  | canceled
deriving DecidableEq

/-- One poll response body: `{status, output?, error?}`. -/
structure PollResponse where
  status : Status
  output : List String
  error : Option String
deriving DecidableEq

/-- The submit (POST) response body: `{status, id, output?}`. -/
structure SubmitResponse where
  status : Status
  id : String
  output : List String
deriving DecidableEq

/-- What the JS function does at its boundary: return a value
(`string | null`, modelled as `Option String`) or throw an `Error`. -/
inductive GenResult
  | ret (url : Option String)
  | thrown (msg : String)
deriving DecidableEq

/-- Instrumented run of `generateImage`: final result, number of poll
GET requests issued, and total milliseconds spent in the fixed
`setTimeout` delays. -/
structure GenTrace where
  result : GenResult
  polls : ℕ
  delayMs : ℕ
deriving DecidableEq

/-- `for (let i = 0; i < 30; i++)` bound. -/
def MAX_POLL_ATTEMPTS : ℕ := 30

/-- `setTimeout(r, 2000)` delay before every poll. -/
def POLL_DELAY_MS : ℕ := 2000

/-- JS `x || null` on an optional string: the empty string is falsy. -/
def jsOrNull : Option String → Option String
  | some s => if s = "" then none else some s
  | none => none

/-- JS `x || 'Unknown'` on the optional backend error string. -/
def jsOrUnknown : Option String → String
  | some s => if s = "" then "Unknown" else s
  | none => "Unknown"

/-- Text of a terminal status interpolated into the thrown message. -/
def Status.text : Status → String
  | .queued => "queued"
  | .starting => "starting"
  | .processing => "processing"
  | .succeeded => "succeeded"
  | .failed => "failed"
  | .canceled => "canceled"

/-- The polling loop body of `generateImage`: iteration index `i`,
remaining iterations `remaining` (the loop runs while `i < 30`), with
the poll count and delay total accumulated so far.  Each iteration
checks the cancellation token, sleeps 2000 ms, issues one GET, then
branches on the reported status exactly as the source does. -/
def pollLoop (backend : ℕ → PollResponse) (cancelled : ℕ → Bool) :
    ℕ → ℕ → ℕ → ℕ → GenTrace
  | _, 0, polls, delayMs => ⟨.ret none, polls, delayMs⟩
  | i, remaining + 1, polls, delayMs =>
    if cancelled i then ⟨.ret none, polls, delayMs⟩
    else
      match (backend i).status with
      | .succeeded =>
          ⟨.ret (jsOrNull (backend i).output.head?),
            polls + 1, delayMs + POLL_DELAY_MS⟩
      | .failed =>
          ⟨.thrown ("Generation failed. Reason: " ++ jsOrUnknown (backend i).error),
            polls + 1, delayMs + POLL_DELAY_MS⟩
      | .canceled =>
          ⟨.thrown ("Generation canceled. Reason: " ++ jsOrUnknown (backend i).error),
            polls + 1, delayMs + POLL_DELAY_MS⟩
      | _ => pollLoop backend cancelled (i + 1) remaining (polls + 1)
          (delayMs + POLL_DELAY_MS)

/-- `generateImage` (`extension.ts` lines 153–186; identical to
`pollGeneration` in the chat participant): the poll loop runs only when
the submit response's status is `processing` or `starting`; a
synchronous `succeeded` with non-empty output returns its first URL;
every other submit status returns `null` immediately. -/
def generateImage (submit : SubmitResponse) (backend : ℕ → PollResponse)
    (cancelled : ℕ → Bool) : GenTrace :=
  if submit.status = .processing ∨ submit.status = .starting then
    pollLoop backend cancelled 0 MAX_POLL_ATTEMPTS 0 0
  else if submit.status = .succeeded ∧ 0 < submit.output.length then
    ⟨.ret submit.output.head?, 0, 0⟩
  else
    ⟨.ret none, 0, 0⟩

/-- A status on which neither the submit branch nor the poll loop
terminates the job: not `succeeded`, `failed` or `canceled`. -/
def Status.nonTerminal (s : Status) : Prop :=
  s ≠ .succeeded ∧ s ≠ .failed ∧ s ≠ .canceled

instance (s : Status) : Decidable s.nonTerminal := by
  unfold Status.nonTerminal; infer_instance

/-! ### Poll-loop lemmas -/

/-- With no cancellation and a backend that never reports a terminal
status, the loop exhausts its iteration budget, polling once and
sleeping once per remaining iteration, and returns `null`. -/
lemma pollLoop_exhausts (backend : ℕ → PollResponse)
    (hb : ∀ j, (backend j).status.nonTerminal) :
    ∀ remaining i polls delayMs,
      pollLoop backend (fun _ => false) i remaining polls delayMs =
        ⟨.ret none, polls + remaining, delayMs + POLL_DELAY_MS * remaining⟩ := by
  intro remaining
  induction remaining with
  | zero => intro i polls delayMs; simp [pollLoop]
  | succ r ih =>
    intro i polls delayMs
    obtain ⟨h1, h2, h3⟩ := hb i
    rw [pollLoop]
    simp only [Bool.false_eq_true, if_false]
    cases hs : (backend i).status
    case succeeded => exact absurd hs h1
    case failed => exact absurd hs h2
    case canceled => exact absurd hs h3
    all_goals
      simp only [ih, GenTrace.mk.injEq, POLL_DELAY_MS, true_and]
      omega

/-- With cancellation signalled from iteration `c` on (and observed at
the check that opens iteration `c`), the loop returns `null` right
there: `c` polls and `c` delays happen, none after the signal. -/
lemma pollLoop_cancelled (backend : ℕ → PollResponse) (c : ℕ)
    (hb : ∀ j, j < c → (backend j).status.nonTerminal) :
    ∀ remaining i polls delayMs, i ≤ c → c < i + remaining →
      pollLoop backend (fun j => decide (c ≤ j)) i remaining polls delayMs =
        ⟨.ret none, polls + (c - i), delayMs + POLL_DELAY_MS * (c - i)⟩ := by
  intro remaining
  induction remaining with
  | zero => intro i polls delayMs h1 h2; omega
  | succ r ih =>
    intro i polls delayMs h1 h2
    rw [pollLoop]
    by_cases hci : c ≤ i
    · have hic : i = c := le_antisymm h1 hci
      subst hic
      simp
    · have hcd : (decide (c ≤ i)) = false := decide_eq_false hci
      obtain ⟨g1, g2, g3⟩ := hb i (by omega)
      rw [hcd]
      simp only [Bool.false_eq_true, if_false]
      cases hs : (backend i).status
      all_goals first
        | exact absurd hs g1
        | exact absurd hs g2
        | exact absurd hs g3
        | (rw [ih (i + 1) (polls + 1) (delayMs + POLL_DELAY_MS) (by omega) (by omega)]
           simp only [GenTrace.mk.injEq, POLL_DELAY_MS, true_and]
           omega)

/-- The `processing` status is non-terminal. -/
lemma processing_nonTerminal : Status.nonTerminal .processing := by decide

/-! ### Claim C1 — bounded polling -/

/-- C1 (counterexample): the claim quantifies over every non-terminal
initial submit status, but the source only enters the poll loop for
`processing` and `starting`.  A job whose submit returns the
non-terminal status `queued` (a status the backend contract lists) gets
zero poll attempts — not 30 — and `generateImage` returns `null`
immediately, even though the backend would never report a terminal
status. -/
theorem generateImage_queued_skips_polling :
    Status.nonTerminal .queued ∧
    generateImage ⟨.queued, "pred-1", []⟩ (fun _ => ⟨.processing, [], none⟩)
        (fun _ => false) = ⟨.ret none, 0, 0⟩ ∧
    (0 : ℕ) ≠ MAX_POLL_ATTEMPTS := by
  refine ⟨by decide, by decide, by decide⟩

/-- C1 (amended): for a submit status of `processing` or `starting` and
a backend that never reports a terminal status, `generateImage`
performs exactly 30 poll attempts, sleeping a fixed 2000 ms before each
one (60 000 ms in total), and then stops returning `null` — the caller
surfaces this as the timeout failure; the loop never runs a 31st
iteration.  Any other non-terminal submit status skips the loop and
returns `null` with zero polls. -/
theorem generateImage_timeout_after_30_polls (submit : SubmitResponse)
    (backend : ℕ → PollResponse)
    (hsub : submit.status = .processing ∨ submit.status = .starting)
    (hb : ∀ j, (backend j).status.nonTerminal) :
    generateImage submit backend (fun _ => false) = ⟨.ret none, 30, 60000⟩ := by
  unfold generateImage
  rw [if_pos hsub, pollLoop_exhausts backend hb]
  simp [MAX_POLL_ATTEMPTS, POLL_DELAY_MS]

/-- Witness for C1's theorem at a concrete submit response and a
backend stuck on `processing` forever. -/
theorem generateImage_timeout_after_30_polls_witness :
    (∀ j : ℕ, ((fun _ => (⟨.processing, [], none⟩ : PollResponse)) j).status.nonTerminal) ∧
    generateImage ⟨.starting, "pred-2", []⟩
        (fun _ => ⟨.processing, [], none⟩) (fun _ => false) =
      ⟨.ret none, 30, 60000⟩ :=
  ⟨fun _ => processing_nonTerminal,
    generateImage_timeout_after_30_polls _ _ (Or.inr rfl)
      (fun _ => processing_nonTerminal)⟩

/-! ### Claim C2 — cancellation -/

/-- C2 (counterexample): the source returns `null` on cancellation —
the very same value the timeout path returns — so the cancellation
outcome is not distinct from the `Timeout` outcome.  Concretely, a run
cancelled before the first poll and a run that exhausts all 30 polls
produce equal results. -/
theorem generateImage_cancel_equals_timeout_result :
    (generateImage ⟨.processing, "pred-3", []⟩
        (fun _ => ⟨.processing, [], none⟩) (fun _ => true)).result =
      (generateImage ⟨.processing, "pred-3", []⟩
        (fun _ => ⟨.processing, [], none⟩) (fun _ => false)).result := by
  decide

/-- C2 (amended): if the cancellation token is signalled from poll
iteration `c < 30` on (and the backend stayed non-terminal up to
there), the loop exits at the cancellation check that opens iteration
`c`: exactly `c` polls and `c` 2000 ms delays happened, and no network
call is made after the signal is observed.  The function returns
`null` — the same value as the timeout path, not a distinct `Canceled`
outcome (the distinctness asserted by the claim fails, see the
counterexample); a backend-reported failure, by contrast, is a thrown
error and is distinct. -/
theorem generateImage_cancel_stops_polling (submit : SubmitResponse)
    (backend : ℕ → PollResponse) (c : ℕ)
    (hsub : submit.status = .processing ∨ submit.status = .starting)
    (hc : c < 30)
    (hb : ∀ j, j < c → (backend j).status.nonTerminal) :
    generateImage submit backend (fun j => decide (c ≤ j)) =
      ⟨.ret none, c, 2000 * c⟩ := by
  unfold generateImage
  rw [if_pos hsub,
    pollLoop_cancelled backend c hb MAX_POLL_ATTEMPTS 0 0 0 (by omega)
      (by simp [MAX_POLL_ATTEMPTS]; omega)]
  simp [POLL_DELAY_MS]

/-- Witness for C2's theorem: cancellation signalled from iteration 3
stops the run after exactly 3 polls and 6000 ms of delay. -/
theorem generateImage_cancel_stops_polling_witness :
    (3 < 30 ∧
      ∀ j : ℕ, j < 3 →
        ((fun _ => (⟨.processing, [], none⟩ : PollResponse)) j).status.nonTerminal) ∧
    generateImage ⟨.processing, "pred-4", []⟩
        (fun _ => ⟨.processing, [], none⟩) (fun j => decide (3 ≤ j)) =
      ⟨.ret none, 3, 6000⟩ :=
  ⟨⟨by decide, fun _ _ => processing_nonTerminal⟩,
    generateImage_cancel_stops_polling _ _ 3 (Or.inl rfl) (by decide)
      (fun _ _ => processing_nonTerminal)⟩

/-! ## Chat-handler pipeline (`extension.ts` `createChatParticipant`,
lines 80–146): generation → download → optional cloud upload.  The
download and the cloud upload are network/SDK calls, modelled as
`Except` values; `getCurrentUser()` is modelled as an optional user. -/

/-- The `getCurrentUser()` shape (`blobStorage.ts`). -/
structure UserInfo where
  label : String
  id : String
  hashedId : String
deriving DecidableEq

/-- Observable outcome of one chat-handler run: the local temp path (if
the image was downloaded), the cloud share URL (if the upload produced
one), and the "Generation Failed" reason if the mandatory stages threw. -/
structure RunResult where
  localPath : Option String
  shareUrl : Option String
  errorMessage : Option String
deriving DecidableEq

/-- The cloud-upload stage (`extension.ts` lines 115–138): attempted
only when a user session exists and the temp file exists; a thrown
upload error is caught and swallowed (telemetry only); a `null` return
from `uploadGeneratedImage` leaves the run without a share URL. -/
def runCloudStage (user : Option UserInfo) (fileExists : Bool)
    (upload : Except String (Option String)) : Option String :=
  match user with
  | none => none
  | some _ =>
    if fileExists then
      match upload with
      | .ok u => u
      | .error _ => none
    else none

/-- The chat-handler `try` block around generation, download and cloud
upload: a thrown generation error or a `null` image URL or a download
failure lands in the outer `catch` (one "Generation Failed" message);
otherwise the local path is kept and the cloud stage runs. -/
def chatHandlerRun (gen : GenTrace) (download : Except String String)
    (user : Option UserInfo) (fileExists : Bool)
    (upload : Except String (Option String)) : RunResult :=
  match gen.result with
  | .thrown msg => ⟨none, none, some msg⟩
  | .ret none =>
      ⟨none, none,
        some "Timeout or failure: Generation did not produce an image URL."⟩
  | .ret (some _) =>
    match download with
    | .error m => ⟨none, none, some ("Failed to download image: " ++ m)⟩
    | .ok localPath =>
        ⟨some localPath, runCloudStage user fileExists upload, none⟩

/-! ### Claim C3 — degraded success on cloud failure -/

/-- C3: when generation and download succeed, a cloud upload that
throws, or returns `null` (unavailable), or a missing user session,
still yields a successful run: the local path is populated, there is no
share URL, and no error propagates to the caller (the model function is
total and returns no error message). -/
theorem chatHandlerRun_degraded_success (gen : GenTrace) (url : String)
    (download : Except String String) (localPath : String)
    (user : Option UserInfo) (fileExists : Bool)
    (upload : Except String (Option String))
    (hgen : gen.result = .ret (some url)) (hdl : download = .ok localPath)
    (hfail : (∃ e, upload = .error e) ∨ upload = .ok none ∨ user = none) :
    chatHandlerRun gen download user fileExists upload =
      ⟨some localPath, none, none⟩ := by
  subst hdl
  unfold chatHandlerRun
  rw [hgen]
  rcases hfail with ⟨e, he⟩ | he | he
  · subst he; cases user <;> cases fileExists <;> simp [runCloudStage]
  · subst he; cases user <;> cases fileExists <;> simp [runCloudStage]
  · subst he; simp [runCloudStage]

/-- Witness for C3's theorem: a run whose CDN/cloud upload throws after
exhausting its retries still returns the local path with no share URL
and no error. -/
theorem chatHandlerRun_degraded_success_witness :
    ((⟨.ret (some "https://img/1.png"), 0, 0⟩ : GenTrace).result =
        .ret (some "https://img/1.png")) ∧
    chatHandlerRun ⟨.ret (some "https://img/1.png"), 0, 0⟩
        (.ok "/tmp/oclite/a_1.png")
        (some ⟨"User", "uid", "h1"⟩) true (.error "upload failed after 3 attempts") =
      ⟨some "/tmp/oclite/a_1.png", none, none⟩ :=
  ⟨rfl,
    chatHandlerRun_degraded_success _ "https://img/1.png" _ "/tmp/oclite/a_1.png"
      _ _ _ rfl rfl (Or.inl ⟨_, rfl⟩)⟩

/-! ## ImageKit CDN uploader (`services/imagekit.ts`
`uploadToImageKit`): up to 3 attempts; a thrown SDK error waits
`RETRY_DELAY_MS * attempt` before the next attempt, while a
nominally-successful response with no URL hits `continue` and retries
with no wait at all. -/

/-- An SDK upload call either throws or returns a (possibly `null`)
response object whose string fields may be empty (JS falsy). -/
structure UploadResp where
  url : String
  fileId : String
  thumbnailUrl : String
deriving DecidableEq

/-- Outcome of one `client.files.upload` call. -/
inductive AttemptOutcome
  | throws (msg : String)
  | returns (resp : Option UploadResp)
deriving DecidableEq

/-- `ImageKitUploadResult` as built on the success path. -/
structure ImageKitUploadResult where
  url : String
  fileId : String
  thumbnailUrl : String
deriving DecidableEq

/-- `MAX_RETRIES = 3` — attempts total, not extra retries. -/
def IK_MAX_RETRIES : ℕ := 3

/-- `RETRY_DELAY_MS = 2000` — linear backoff base. -/
def IK_RETRY_DELAY_MS : ℕ := 2000

/-- Instrumented run of `uploadToImageKit`: the returned value (`null`
when all attempts are exhausted), the list of waits actually performed
(ms, in order), and how many upload calls were made. -/
structure UploadTrace where
  result : Option ImageKitUploadResult
  delays : List ℕ
  attemptsMade : ℕ
deriving DecidableEq

/-- The `for (attempt = 1; attempt <= MAX_RETRIES; attempt++)` loop of
`uploadToImageKit`.  `a` is the 1-based attempt number, `fuel` the
remaining iterations.  A missing response or empty `result.url` sets
`lastError` and hits `continue` (no delay); a thrown error waits
`RETRY_DELAY_MS * attempt` when further attempts remain; success
returns the result with JS `||` fallbacks applied. -/
def uploadLoop (attempts : ℕ → AttemptOutcome) :
    ℕ → ℕ → List ℕ → ℕ → UploadTrace
  | _, 0, delays, made => ⟨none, delays, made⟩
  | a, fuel + 1, delays, made =>
    match attempts a with
    | .returns none => uploadLoop attempts (a + 1) fuel delays (made + 1)
    | .returns (some resp) =>
        if resp.url = "" then uploadLoop attempts (a + 1) fuel delays (made + 1)
        else
          ⟨some ⟨resp.url, resp.fileId,
              if resp.thumbnailUrl = "" then resp.url else resp.thumbnailUrl⟩,
            delays, made + 1⟩
    | .throws _ =>
        if a < IK_MAX_RETRIES then
          uploadLoop attempts (a + 1) fuel (delays ++ [IK_RETRY_DELAY_MS * a])
            (made + 1)
        else ⟨none, delays, made + 1⟩

/-- `uploadToImageKit` (`services/imagekit.ts` lines 50–110): run the
attempt loop from attempt 1; exhausting every attempt returns `null`,
never an exception. -/
def uploadToImageKit (attempts : ℕ → AttemptOutcome) : UploadTrace :=
  uploadLoop attempts 1 IK_MAX_RETRIES [] 0

/-- The loop never makes more upload calls than it has fuel. -/
lemma uploadLoop_attempts_le (attempts : ℕ → AttemptOutcome) :
    ∀ fuel a delays made,
      (uploadLoop attempts a fuel delays made).attemptsMade ≤ made + fuel := by
  intro fuel
  induction fuel with
  | zero => intro a delays made; simp [uploadLoop]
  | succ f ih =>
    intro a delays made
    rw [uploadLoop]
    cases attempts a
    · dsimp only
      split
      · exact le_trans (ih _ _ _) (by omega)
      · simp
    · next resp =>
      cases resp
      · exact le_trans (ih _ _ _) (by omega)
      · dsimp only
        split
        · exact le_trans (ih _ _ _) (by omega)
        · simp

/-! ### Claim C4 — CDN retry/backoff shape -/

/-- C4 (counterexample): a nominally-successful response with a missing
or empty URL is retried, but **without** the backoff wait the claim
asserts: three straight empty-URL responses produce 3 attempts and an
empty delay list, whereas three straight transport errors produce the
two linear-backoff waits `[2000, 4000]`. -/
theorem uploadToImageKit_emptyUrl_skips_backoff :
    uploadToImageKit (fun _ => .returns (some ⟨"", "", ""⟩)) = ⟨none, [], 3⟩ ∧
    uploadToImageKit (fun _ => .throws "network error") =
      ⟨none, [IK_RETRY_DELAY_MS * 1, IK_RETRY_DELAY_MS * 2], 3⟩ ∧
    ([] : List ℕ) ≠ [IK_RETRY_DELAY_MS * 1, IK_RETRY_DELAY_MS * 2] := by
  refine ⟨by decide, by decide, by decide⟩

/-- C4 (amended): the upload makes at most 3 attempts total; transport
errors on attempts 1 and 2 followed by a success on attempt 3 incur
exactly the two linear-backoff waits 2000 ms and 4000 ms (the second
strictly longer) and return the attempt-3 result; exhausting all
attempts on transport errors returns `null` (no exception) after those
same two waits; an empty-URL response is treated as a failure and
retried, but with no backoff wait (unlike a transport error, contrary
to the claim's "including the backoff wait"). -/
theorem uploadToImageKit_retry_shape (e1 e2 : String) (r : UploadResp)
    (hurl : r.url ≠ "") :
    uploadToImageKit
        (fun a => if a = 1 then .throws e1 else if a = 2 then .throws e2
          else .returns (some r)) =
      ⟨some ⟨r.url, r.fileId,
          if r.thumbnailUrl = "" then r.url else r.thumbnailUrl⟩,
        [2000, 4000], 3⟩ ∧
    (∀ f, (uploadToImageKit f).attemptsMade ≤ 3) ∧
    (∀ msgs : ℕ → String,
      uploadToImageKit (fun a => .throws (msgs a)) = ⟨none, [2000, 4000], 3⟩) ∧
    (∀ f g, uploadToImageKit
        (fun a => if a = 1 then .returns (some ⟨"", f, g⟩)
          else .returns (some r)) =
      ⟨some ⟨r.url, r.fileId,
          if r.thumbnailUrl = "" then r.url else r.thumbnailUrl⟩, [], 2⟩) ∧
    (2000 : ℕ) < 4000 := by
  refine ⟨?_, ?_, ?_, ?_, by norm_num⟩
  · simp [uploadToImageKit, uploadLoop, IK_MAX_RETRIES, IK_RETRY_DELAY_MS, hurl]
  · intro f; exact le_trans (uploadLoop_attempts_le f _ _ _ _) (by simp [IK_MAX_RETRIES])
  · intro msgs
    simp [uploadToImageKit, uploadLoop, IK_MAX_RETRIES, IK_RETRY_DELAY_MS]
  · intro f g
    simp [uploadToImageKit, uploadLoop, IK_MAX_RETRIES, IK_RETRY_DELAY_MS, hurl]

/-- Witness for C4's theorem at a concrete attempt-3 response. -/
theorem uploadToImageKit_retry_shape_witness :
    ("https://ik.io/a.png" ≠ "") ∧
    uploadToImageKit
        (fun a => if a = 1 then .throws "e1" else if a = 2 then .throws "e2"
          else .returns (some ⟨"https://ik.io/a.png", "fid", ""⟩)) =
      ⟨some ⟨"https://ik.io/a.png", "fid", "https://ik.io/a.png"⟩,
        [2000, 4000], 3⟩ :=
  ⟨by decide,
    (uploadToImageKit_retry_shape "e1" "e2" ⟨"https://ik.io/a.png", "fid", ""⟩
      (by decide)).1⟩

/-! ## Client-side rate limiter (`services/rateLimit.ts`).  The map is
keyed per user and entries are independent, so the embedding carries
one user's entry (`Option RateLimitEntry`) through a run of checks;
`Date.now()` is the explicit `now` argument in milliseconds. -/

/-- `RATE_LIMIT_WINDOW = 60 * 1000`. -/
def RATE_LIMIT_WINDOW : ℕ := 60 * 1000

/-- `MAX_REQUESTS_PER_WINDOW = 10`. -/
def MAX_REQUESTS_PER_WINDOW : ℕ := 10

/-- One `_rateLimitMap` value: `{count, resetTime}`. -/
structure RateLimitEntry where
  count : ℕ
  resetTime : ℕ
deriving DecidableEq

/-- Result of one `checkRateLimit` call: the returned boolean, the
entry stored back in the map, and the wait (in whole seconds, rounded
up) shown in the warning when the call is rejected. -/
structure CheckOutcome where
  allowed : Bool
  entry : RateLimitEntry
  reportedWaitSec : Option ℕ
deriving DecidableEq

/-- `checkRateLimit` (`services/rateLimit.ts` lines 17–35): a missing
entry or `now > entry.resetTime` resets the window (count 1, reset 60 s
ahead) and allows; a saturated count rejects, reporting
`Math.ceil((resetTime - now) / 1000)` seconds; otherwise the count is
incremented and the call allowed. -/
def checkRateLimit (now : ℕ) (entry : Option RateLimitEntry) : CheckOutcome :=
  match entry with
  | none => ⟨true, ⟨1, now + RATE_LIMIT_WINDOW⟩, none⟩
  | some e =>
    if e.resetTime < now then ⟨true, ⟨1, now + RATE_LIMIT_WINDOW⟩, none⟩
    else if MAX_REQUESTS_PER_WINDOW ≤ e.count then
      ⟨false, e, some ((e.resetTime - now + 999) / 1000)⟩
    else ⟨true, ⟨e.count + 1, e.resetTime⟩, none⟩

/-- A sequence of `checkRateLimit` calls for one user at the given
timestamps, threading the stored entry; returns the list of booleans
and the final entry. -/
def runChecks (times : List ℕ) (entry : Option RateLimitEntry) :
    List Bool × Option RateLimitEntry :=
  match times with
  | [] => ([], entry)
  | t :: ts =>
    let o := checkRateLimit t entry
    let rest := runChecks ts (some o.entry)
    (o.allowed :: rest.1, rest.2)

/-- The stored count stays at or below the ceiling. -/
def entryCountLe (entry : Option RateLimitEntry) : Prop :=
  ∀ e ∈ entry, e.count ≤ MAX_REQUESTS_PER_WINDOW

/-- One check preserves the count ceiling. -/
lemma checkRateLimit_count_le (now : ℕ) (entry : Option RateLimitEntry)
    (h : entryCountLe entry) :
    (checkRateLimit now entry).entry.count ≤ MAX_REQUESTS_PER_WINDOW := by
  cases entry with
  | none => simp [checkRateLimit, MAX_REQUESTS_PER_WINDOW]
  | some e =>
    have he := h e (by simp)
    by_cases h1 : e.resetTime < now
    · simp [checkRateLimit, h1, MAX_REQUESTS_PER_WINDOW]
    · by_cases h2 : MAX_REQUESTS_PER_WINDOW ≤ e.count
      · simpa [checkRateLimit, h1, h2] using he
      · simp only [checkRateLimit, if_neg h1, if_neg h2]
        omega

/-- Any run of checks preserves the count ceiling. -/
lemma runChecks_count_le :
    ∀ (ts : List ℕ) (entry : Option RateLimitEntry), entryCountLe entry →
      entryCountLe (runChecks ts entry).2 := by
  intro ts
  induction ts with
  | nil => intro entry h; simpa [runChecks] using h
  | cons t ts ih =>
    intro entry h
    rw [runChecks]
    exact ih _ (by
      intro e he
      simp only [Option.mem_def, Option.some.injEq] at he
      subst he
      exact checkRateLimit_count_le t entry h)

/-- Within one open window (all timestamps at or before the reset
time), checks starting from count `c` produce `10 - c` allowed results
followed by rejections. -/
lemma runChecks_within_window (R : ℕ) :
    ∀ (ts : List ℕ) (c : ℕ), (∀ t ∈ ts, t ≤ R) → c ≤ 10 →
      (runChecks ts (some ⟨c, R⟩)).1 =
        List.replicate (min ts.length (10 - c)) true ++
          List.replicate (ts.length - (10 - c)) false := by
  intro ts
  induction ts with
  | nil => intro c h hc; simp [runChecks]
  | cons t ts ih =>
    intro c h hc
    have ht : ¬ (R < t) := by
      have := h t (by simp)
      omega
    rw [runChecks]
    by_cases hcount : 10 ≤ c
    · have hc10 : c = 10 := le_antisymm hc hcount
      subst hc10
      simp only [checkRateLimit, if_neg ht, MAX_REQUESTS_PER_WINDOW,
        if_pos (le_refl 10)]
      rw [ih 10 (fun x hx => h x (by simp [hx])) (le_refl 10)]
      simp [List.replicate_succ]
    · have e1 : min (ts.length + 1) (10 - c) = min ts.length (9 - c) + 1 := by
        omega
      have e2 : ts.length + 1 - (10 - c) = ts.length - (9 - c) := by omega
      have e3 : 10 - (c + 1) = 9 - c := by omega
      simp only [checkRateLimit, if_neg ht, MAX_REQUESTS_PER_WINDOW,
        if_neg hcount]
      rw [ih (c + 1) (fun x hx => h x (by simp [hx])) (by omega)]
      simp only [List.length_cons, e1, e2, e3, List.replicate_succ,
        List.cons_append]

/-! ### Claim C5 — rate-limit window behavior -/

/-- C5: (1) the first check with no stored entry is allowed and stores
count 1 with a reset time 60 s ahead; (2) a check after the stored
reset time has passed likewise resets to count 1; (3) starting fresh,
eleven checks all inside one window yield ten allowed calls and an
eleventh rejection; (4) the rejection reports the remaining wait
(rounded up to seconds) rather than raising; (5) the stored count never
exceeds the ceiling of 10. -/
theorem checkRateLimit_window_behavior :
    (∀ t, checkRateLimit t none = ⟨true, ⟨1, t + 60000⟩, none⟩) ∧
    (∀ t e, e.resetTime < t →
      checkRateLimit t (some e) = ⟨true, ⟨1, t + 60000⟩, none⟩) ∧
    (∀ t0 ts, ts.length = 10 → (∀ t ∈ ts, t ≤ t0 + 60000) →
      (runChecks (t0 :: ts) none).1 = List.replicate 10 true ++ [false]) ∧
    (∀ t R, t ≤ R →
      checkRateLimit t (some ⟨10, R⟩) =
        ⟨false, ⟨10, R⟩, some ((R - t + 999) / 1000)⟩) ∧
    (∀ ts, entryCountLe (runChecks ts none).2) := by
  refine ⟨?_, ?_, ?_, ?_, ?_⟩
  · intro t; simp [checkRateLimit, RATE_LIMIT_WINDOW]
  · intro t e he; simp [checkRateLimit, RATE_LIMIT_WINDOW, he]
  · intro t0 ts hlen hts
    rw [runChecks]
    simp only [checkRateLimit, RATE_LIMIT_WINDOW]
    rw [runChecks_within_window (t0 + 60000) ts 1 hts (by omega), hlen]
    simp [List.replicate_succ]
  · intro t R htR
    have h1 : ¬ (R < t) := by omega
    simp [checkRateLimit, MAX_REQUESTS_PER_WINDOW, h1]
  · intro ts
    exact runChecks_count_le ts none (by intro e he; simp at he)

/-- Witness for C5's theorem: eleven checks at concrete times inside
one window give ten `true`s and one `false`. -/
theorem checkRateLimit_window_behavior_witness :
    ((List.replicate 10 5).length = 10 ∧
      ∀ t ∈ List.replicate 10 5, t ≤ 0 + 60000) ∧
    (runChecks (0 :: List.replicate 10 5) none).1 =
      List.replicate 10 true ++ [false] :=
  ⟨⟨by decide, fun t ht => by simp at ht; omega⟩,
    checkRateLimit_window_behavior.2.2.1 0 (List.replicate 10 5) (by decide)
      (fun t ht => by simp at ht; omega)⟩

/-! ### Claim C9 — status query ignores window expiry -/

/-- The `{remaining, resetTime}` record returned by
`getRateLimitStatus`. -/
structure RateLimitInfo where
  remaining : ℕ
  resetTime : ℕ
deriving DecidableEq

/-- `getRateLimitStatus` (`services/rateLimit.ts` lines 40–49): it
takes no clock at all — a missing entry reports the full allowance and
reset time 0; an existing entry reports `max(0, 10 - count)` (natural
subtraction) and the stored reset time, with no expiry check. -/
def getRateLimitStatus (entry : Option RateLimitEntry) : RateLimitInfo :=
  match entry with
  | none => ⟨MAX_REQUESTS_PER_WINDOW, 0⟩
  | some e => ⟨MAX_REQUESTS_PER_WINDOW - e.count, e.resetTime⟩

/-- C9: for a saturated entry whose window has already expired,
`getRateLimitStatus` still reports `remaining = 0` and the stale reset
time, even though `checkRateLimit` at the same instant would reset the
window and allow the call; with no stored entry it reports
`remaining = 10` and `resetTime = 0`. -/
theorem getRateLimitStatus_ignores_expiry (now : ℕ) (e : RateLimitEntry)
    (hcount : e.count = 10) (hexp : e.resetTime < now) :
    getRateLimitStatus (some e) = ⟨0, e.resetTime⟩ ∧
    (checkRateLimit now (some e)).allowed = true ∧
    (checkRateLimit now (some e)).entry = ⟨1, now + 60000⟩ ∧
    getRateLimitStatus none = ⟨10, 0⟩ := by
  refine ⟨?_, ?_, ?_, ?_⟩ <;>
    simp [getRateLimitStatus, checkRateLimit, MAX_REQUESTS_PER_WINDOW,
      RATE_LIMIT_WINDOW, hcount, hexp]

/-- Witness for C9's theorem at a concrete stale entry. -/
theorem getRateLimitStatus_ignores_expiry_witness :
    ((⟨10, 1000⟩ : RateLimitEntry).count = 10 ∧
      (⟨10, 1000⟩ : RateLimitEntry).resetTime < 70000) ∧
    getRateLimitStatus (some ⟨10, 1000⟩) = ⟨0, 1000⟩ ∧
    (checkRateLimit 70000 (some ⟨10, 1000⟩)).allowed = true :=
  ⟨⟨by decide, by decide⟩,
    (getRateLimitStatus_ignores_expiry 70000 ⟨10, 1000⟩ rfl (by decide)).1,
    (getRateLimitStatus_ignores_expiry 70000 ⟨10, 1000⟩ rfl (by decide)).2.1⟩

/-! ## Blob-store metadata and telemetry (`services/blobStorage.ts`
`uploadGeneratedImage`, `fetchImageGallery`; `services/auth.ts`
`hashUserId`, `getUserContainerPath`; `services/rateLimit.ts`).  The
SHA-256 from Node's `crypto` behind `hashUserId` is an external
function, passed as the `hash` parameter; everything the repository
itself assembles is translated verbatim. -/

/-- Printable-ASCII predicate (bytes 0x20–0x7E) that the spec's
sanitization property refers to. -/
def isPrintableAscii (s : String) : Bool :=
  s.toList.all fun c => 0x20 ≤ c.toNat && c.toNat ≤ 0x7e

/-- The metadata object attached by `uploadGeneratedImage`
(`blobStorage.ts`, the `blockBlob.uploadData` call): every value except
`userId` (which goes through `hashUserId`) and the `label || 'anonymous'`
fallback is attached verbatim — no sanitization is applied anywhere. -/
def blobUploadMetadata (hash : String → String)
    (accountId accountLabel originalPrompt model timestampIso shareId
      shareUrl : String) : List (String × String) :=
  [("originalPrompt", originalPrompt),
   ("model", model),
   ("generatedBy", "oclite-vscode"),
   ("timestamp", timestampIso),
   ("userId", hash accountId),
   ("userEmail", if accountLabel = "" then "anonymous" else accountLabel),
   ("shareable", "true"),
   ("shareId", shareId),
   ("shareUrl", shareUrl)]

/-- Properties of the `blob.upload.success` telemetry event. -/
def uploadSuccessEventProps (hash : String → String)
    (accountId model fileName promptLength shareId : String) :
    List (String × String) :=
  [("model", model), ("fileName", fileName), ("promptLength", promptLength),
   ("userId", hash accountId), ("shareId", shareId)]

/-- Properties of the `blob.gallery.fetched` telemetry event. -/
def galleryFetchedEventProps (hash : String → String)
    (accountId imageCount : String) : List (String × String) :=
  [("imageCount", imageCount), ("userId", hash accountId)]

/-- Properties of the `blob.rateLimit.hit` telemetry event
(`rateLimit.ts` line 29). -/
def rateLimitHitEventProps (hash : String → String) (accountId : String) :
    List (String × String) :=
  [("userId", hash accountId)]

/-- `getUserContainerPath` (`services/auth.ts`): the storage partition
is `users/<hashUserId(account.id)>`. -/
def getUserContainerPath (hash : String → String) (accountId : String) :
    String :=
  "users/" ++ hash accountId

/-! ### Claim C6 — metadata sanitization (code bug) -/

/-- C6: the claim (and the repository's own ARCHITECTURE.md, which
promises ASCII-only 0x20–0x7E metadata) says metadata values are
sanitized to printable ASCII before upload, but `uploadGeneratedImage`
attaches the prompt verbatim: a prompt containing a non-ASCII byte and
a control character is stored unchanged and fails the
printable-ASCII-only pattern. -/
theorem blobMetadata_prompt_unsanitized :
    (blobUploadMetadata (fun _ => "deadbeef") "user-1" "User One"
        "café\n" "sdxl-lightning" "2025-01-01T00-00-00Z" "sid" "surl").lookup
        "originalPrompt" = some "café\n" ∧
    isPrintableAscii "café\n" = false := by
  refine ⟨by decide, by decide⟩

/-! ### Claim C7 — only hashed user identifiers persisted/logged -/

/-- C7: everything persisted to blob metadata or attached to telemetry
depends on the account id only through its one-way hash — two accounts
with equal hashes produce identical metadata, identical telemetry
properties and identical storage partitions — and the `userId` field
attached to the upload metadata is exactly `hashUserId(account.id)`,
never the raw id. -/
theorem persisted_data_only_hashed_user_id (hash : String → String)
    (id id' : String) (hh : hash id = hash id')
    (label prompt model ts sid surl fileName promptLength
      imageCount : String) :
    blobUploadMetadata hash id label prompt model ts sid surl =
      blobUploadMetadata hash id' label prompt model ts sid surl ∧
    uploadSuccessEventProps hash id model fileName promptLength sid =
      uploadSuccessEventProps hash id' model fileName promptLength sid ∧
    galleryFetchedEventProps hash id imageCount =
      galleryFetchedEventProps hash id' imageCount ∧
    rateLimitHitEventProps hash id = rateLimitHitEventProps hash id' ∧
    getUserContainerPath hash id = getUserContainerPath hash id' ∧
    ("userId", hash id) ∈ blobUploadMetadata hash id label prompt model ts sid surl := by
  refine ⟨?_, ?_, ?_, ?_, ?_, ?_⟩ <;>
    simp [blobUploadMetadata, uploadSuccessEventProps,
      galleryFetchedEventProps, rateLimitHitEventProps,
      getUserContainerPath, hh]

/-- Witness for C7's theorem with a concrete hash and two distinct
account ids hashing alike. -/
theorem persisted_data_only_hashed_user_id_witness :
    ((fun _ : String => "h8a") "alice" = (fun _ : String => "h8a") "bob") ∧
    blobUploadMetadata (fun _ => "h8a") "alice" "A" "p" "m" "t" "s" "u" =
      blobUploadMetadata (fun _ => "h8a") "bob" "A" "p" "m" "t" "s" "u" :=
  ⟨rfl,
    (persisted_data_only_hashed_user_id (fun _ => "h8a") "alice" "bob" rfl
      "A" "p" "m" "t" "s" "u" "f" "pl" "ic").1⟩

/-! ## Share-link generator (`services/sharing.ts`).  The SHA-256
digest itself comes from Node's `crypto` and is passed as a `digest`
parameter returning the raw 32 digest bytes; the base64url rendering
(`.digest('base64url')`, unpadded) and the 10-character truncation
(`.substring(0, 10)`) are modelled here. -/

/-- The 64-character base64url alphabet. -/
def b64Table : List Char :=
  ['A', 'B', 'C', 'D', 'E', 'F', 'G', 'H', 'I', 'J', 'K', 'L', 'M',
   'N', 'O', 'P', 'Q', 'R', 'S', 'T', 'U', 'V', 'W', 'X', 'Y', 'Z',
   'a', 'b', 'c', 'd', 'e', 'f', 'g', 'h', 'i', 'j', 'k', 'l', 'm',
   'n', 'o', 'p', 'q', 'r', 's', 't', 'u', 'v', 'w', 'x', 'y', 'z',
   '0', '1', '2', '3', '4', '5', '6', '7', '8', '9', '-', '_']

/-- One sextet rendered as a base64url character. -/
def b64Char (n : ℕ) : Char := b64Table.getD n 'A'

/-- Unpadded base64url of a byte list, three bytes at a time (the
format Node's `digest('base64url')` produces). -/
def b64urlChunks : List ℕ → List Char
  | [] => []
  | [b1] => [b64Char (b1 / 4), b64Char (b1 % 4 * 16)]
  | [b1, b2] =>
      [b64Char (b1 / 4), b64Char (b1 % 4 * 16 + b2 / 16),
        b64Char (b2 % 16 * 4)]
  | b1 :: b2 :: b3 :: rest =>
      b64Char (b1 / 4) :: b64Char (b1 % 4 * 16 + b2 / 16) ::
        b64Char (b2 % 16 * 4 + b3 / 64) :: b64Char (b3 % 64) ::
          b64urlChunks rest

/-- `SHARE_BASE_URL` from `services/sharing.ts`. -/
def SHARE_BASE_URL : String := "https://oclite.site/share"

/-- `generateShareId(blobName, timestamp)`: SHA-256 of
`blobName + timestamp`, rendered base64url and truncated to the first
10 characters. -/
def generateShareId (digest : String → List ℕ) (blobName timestamp : String) :
    String :=
  ⟨(b64urlChunks (digest (blobName ++ timestamp))).take 10⟩

/-- `createShareUrl(shareId)`. -/
def createShareUrl (shareId : String) : String :=
  SHARE_BASE_URL ++ "/" ++ shareId

/-- A character is URL-safe in the base64url sense. -/
def urlSafeChar (c : Char) : Prop := c.isAlphanum ∨ c = '-' ∨ c = '_'

instance (c : Char) : Decidable (urlSafeChar c) := by
  unfold urlSafeChar; infer_instance

/-- Every character the encoder emits is from the base64url
alphabet (out-of-range sextets fall back to the default 'A', which is
also URL-safe). -/
lemma b64Char_urlSafe (n : ℕ) : urlSafeChar (b64Char n) := by
  unfold b64Char
  rcases lt_or_ge n 64 with h | h
  · interval_cases n <;> decide
  · rw [List.getD_eq_default]
    · decide
    · simpa [b64Table] using h

/-- All emitted characters are URL-safe. -/
lemma b64urlChunks_urlSafe :
    ∀ bs : List ℕ, ∀ c ∈ b64urlChunks bs, urlSafeChar c := by
  intro bs
  induction bs using b64urlChunks.induct with
  | case1 => simp [b64urlChunks]
  | case2 b1 =>
      intro c hc
      simp only [b64urlChunks, List.mem_cons, List.mem_singleton,
        List.not_mem_nil, or_false] at hc
      rcases hc with rfl | rfl <;> exact b64Char_urlSafe _
  | case3 b1 b2 =>
      intro c hc
      simp only [b64urlChunks, List.mem_cons, List.not_mem_nil,
        or_false] at hc
      rcases hc with rfl | rfl | rfl <;> exact b64Char_urlSafe _
  | case4 b1 b2 b3 rest ih =>
      intro c hc
      simp only [b64urlChunks, List.mem_cons] at hc
      rcases hc with rfl | rfl | rfl | hc
      · exact b64Char_urlSafe _
      · exact b64Char_urlSafe _
      · exact b64Char_urlSafe _
      rcases hc with rfl | hc
      · exact b64Char_urlSafe _
      · exact ih c hc

/-- Output length of the unpadded encoder: four characters per full
three-byte chunk, plus two or three for a trailing partial chunk. -/
lemma b64urlChunks_length :
    ∀ bs : List ℕ, (b64urlChunks bs).length =
      4 * (bs.length / 3) +
        (if bs.length % 3 = 0 then 0 else if bs.length % 3 = 1 then 2 else 3) := by
  intro bs
  induction bs using b64urlChunks.induct with
  | case1 => simp [b64urlChunks]
  | case2 b1 => simp [b64urlChunks]
  | case3 b1 b2 => simp [b64urlChunks]
  | case4 b1 b2 b3 rest ih =>
      simp only [b64urlChunks, List.length_cons, ih]
      split_ifs <;> omega

/-! ### Claim C8 — share-id derivation -/

/-- C8: for every digest function honouring the SHA-256 contract (32
bytes out), share-id derivation is deterministic (equal inputs give the
identical id), the id is the hash of `storageKey + timestamp` truncated
to exactly 10 URL-safe base64url characters, and the share URL is the
fixed public base followed by `/` and the id. -/
theorem generateShareId_spec (digest : String → List ℕ)
    (hlen : ∀ s, (digest s).length = 32) (blobName timestamp : String) :
    generateShareId digest blobName timestamp =
      generateShareId digest blobName timestamp ∧
    (generateShareId digest blobName timestamp).length = 10 ∧
    (∀ c ∈ (generateShareId digest blobName timestamp).toList, urlSafeChar c) ∧
    createShareUrl (generateShareId digest blobName timestamp) =
      "https://oclite.site/share/" ++ generateShareId digest blobName timestamp := by
  refine ⟨rfl, ?_, ?_, rfl⟩
  · show ((b64urlChunks (digest (blobName ++ timestamp))).take 10).length = 10
    rw [List.length_take, b64urlChunks_length, hlen]
    decide
  · intro c hc
    have hc' : c ∈ b64urlChunks (digest (blobName ++ timestamp)) := by
      exact List.mem_of_mem_take hc
    exact b64urlChunks_urlSafe _ c hc'

/-- Witness for C8's theorem at a digest satisfying the 32-byte
contract. -/
theorem generateShareId_spec_witness :
    (∀ s : String, ((fun _ => List.replicate 32 7) s : List ℕ).length = 32) ∧
    (generateShareId (fun _ => List.replicate 32 7) "users/h/a.png"
        "2025-01-01").length = 10 :=
  ⟨fun _ => by simp,
    (generateShareId_spec (fun _ => List.replicate 32 7) (fun _ => by simp)
      "users/h/a.png" "2025-01-01").2.1⟩

/-! ## XOR obfuscation helpers (`utilities/secrets.ts`).  A JS string
value is its sequence of UTF-16 code units, modelled as `List ℕ`.
`Array.from(s)` iterates by code points (grouping surrogate pairs into
one element), `char.charCodeAt(0)` returns only the FIRST code unit of
an element, and `String.fromCharCode` truncates its argument to 16
bits. -/

/-- `_CK`: the runtime-derived cipher key, `a.map((v, i) => v ^ b[i])`. -/
def _CK : List ℕ :=
  List.zipWith (fun v w => v ^^^ w)
    [0x39, 0x6B, 0x21, 0x58, 0x40, 0x7E, 0x33, 0x4C]
    [0x11, 0x22, 0x33, 0x44, 0x55, 0x66, 0x77, 0x88]

/-- `_CK[i % keyLen]`. -/
def ckAt (i : ℕ) : ℕ := _CK.getD (i % _CK.length) 0

/-- High-surrogate code unit (0xD800–0xDBFF). -/
def isHigh (u : ℕ) : Bool := decide (0xD800 ≤ u) && decide (u ≤ 0xDBFF)

/-- Low-surrogate code unit (0xDC00–0xDFFF). -/
def isLow (u : ℕ) : Bool := decide (0xDC00 ≤ u) && decide (u ≤ 0xDFFF)

/-- JS `Array.from(s)`: the string split into code-point elements,
each a one- or two-unit string. -/
def jsArrayFrom : List ℕ → List (List ℕ)
  | [] => []
  | [u] => [[u]]
  | u :: v :: rest =>
    if isHigh u && isLow v then [u, v] :: jsArrayFrom rest
    else [u] :: jsArrayFrom (v :: rest)

/-- The indexed map inside `xorEncode`:
`(char, i) => char.charCodeAt(0) ^ _CK[i % keyLen]` — only the first
code unit of each element survives. -/
def xorEncSeq (i : ℕ) : List (List ℕ) → List ℕ
  | [] => []
  | seg :: rest => (seg.headD 0 ^^^ ckAt i) :: xorEncSeq (i + 1) rest

/-- `xorEncode(plaintext)` (`utilities/secrets.ts` lines 43–48). -/
def xorEncode (s : List ℕ) : List ℕ := xorEncSeq 0 (jsArrayFrom s)

/-- The indexed map inside `xorDecode`:
`(byte, i) => String.fromCharCode(byte ^ _CK[i % keyLen])`, whose
`fromCharCode` keeps 16 bits; the `join` of one-unit strings is the
unit list itself. -/
def xorDecSeq (i : ℕ) : List ℕ → List ℕ
  | [] => []
  | b :: rest => (b ^^^ ckAt i) % 65536 :: xorDecSeq (i + 1) rest

/-- `xorDecode(encoded)` (`utilities/secrets.ts` lines 31–36). -/
def xorDecode (encoded : List ℕ) : List ℕ := xorDecSeq 0 encoded

/-- Strings without high surrogates split into singleton elements. -/
lemma jsArrayFrom_singletons :
    ∀ s : List ℕ, (∀ u ∈ s, isHigh u = false) →
      jsArrayFrom s = s.map (fun u => [u]) := by
  intro s
  induction s using jsArrayFrom.induct with
  | case1 => simp [jsArrayFrom]
  | case2 u => simp [jsArrayFrom]
  | case3 u v rest hcond ih =>
    intro h
    have hu : isHigh u = false := h u (by simp)
    simp [hu] at hcond
  | case4 u v rest hcond ih =>
    intro h
    rw [jsArrayFrom, if_neg hcond,
      ih (fun x hx => h x (by simp at hx ⊢; tauto))]
    simp

/-- XOR with the same key unit at the same index cancels, and the
16-bit truncation is the identity on 16-bit inputs (the key bytes are
all below 2^16). -/
lemma xorDecSeq_xorEncSeq :
    ∀ (s : List ℕ) (i : ℕ), (∀ u ∈ s, u < 65536) →
      xorDecSeq i (xorEncSeq i (s.map (fun u => [u]))) = s := by
  intro s
  induction s with
  | nil => intro i h; simp [xorEncSeq, xorDecSeq]
  | cons u rest ih =>
    intro i h
    have hu : u < 65536 := h u (by simp)
    simp only [List.map_cons, xorEncSeq, xorDecSeq, List.headD_cons]
    rw [Nat.xor_assoc, Nat.xor_self, Nat.xor_zero,
      Nat.mod_eq_of_lt hu, ih (i + 1) (fun x hx => h x (by simp [hx]))]

/-! ### Claim C10 — XOR round trip -/

/-- C10 (counterexample): the round trip fails on a string holding an
astral (non-BMP) character: `Array.from` hands `xorEncode` the full
surrogate pair as one element but `charCodeAt(0)` keeps only its high
surrogate, so the emoji U+1F600 `[0xD83D, 0xDE00]` decodes back to the
lone unit `[0xD83D]`. -/
theorem xorDecode_xorEncode_astral_fails :
    xorDecode (xorEncode [0xD83D, 0xDE00]) = [0xD83D] ∧
    [0xD83D] ≠ [0xD83D, 0xDE00] := by
  refine ⟨by decide, by decide⟩

/-- C10 (amended): for every string of basic-plane code units (every
unit below 2^16 and none a high surrogate — so no astral characters),
`xorDecode (xorEncode s) = s`: XOR with the fixed runtime-derived key
is an involution applied position-wise with the same key index in both
directions.  For strings containing astral characters the round trip
loses the low surrogate of each such character and fails. -/
theorem xorDecode_xorEncode_roundtrip (s : List ℕ)
    (hlt : ∀ u ∈ s, u < 65536) (hbmp : ∀ u ∈ s, isHigh u = false) :
    xorDecode (xorEncode s) = s := by
  unfold xorDecode xorEncode
  rw [jsArrayFrom_singletons s hbmp]
  exact xorDecSeq_xorEncSeq s 0 hlt

/-- Witness for C10's theorem on the ASCII string "Hi". -/
theorem xorDecode_xorEncode_roundtrip_witness :
    ((∀ u ∈ [0x48, 0x69], u < 65536) ∧
      (∀ u ∈ [0x48, 0x69], isHigh u = false)) ∧
    xorDecode (xorEncode [0x48, 0x69]) = [0x48, 0x69] :=
  ⟨⟨by decide, by decide⟩,
    xorDecode_xorEncode_roundtrip [0x48, 0x69] (by decide) (by decide)⟩
